import Mathlib

/-!
Verification of the neighborhood-finder server (src/server.js) against its
specification. The source file contains three variants of the server separated
by document markers: the simple query-first server (lines 1-586), the
amenity-first server (lines 587-1554), and the query-first server with map
boundaries (lines 1555-2231). The shallow embedding below models the pure
data-flow logic of these variants; every outbound network call (language model,
Reddit search, Google Maps) is represented by an environment field carrying the
value the call would have produced, and JavaScript exceptions are represented
by an explicit error type threaded through Except.
-/

/-- JavaScript runtime errors that the embedded code can raise. -/
inductive JsError where
  | typeError (message : String)
  | referenceError (message : String)
  | syntaxError (message : String)
deriving DecidableEq

/-- Message carried by a JavaScript error, as surfaced by error.message. -/
def JsError.message : JsError → String
  | .typeError m => m
  | .referenceError m => m
  | .syntaxError m => m

/-- Lowercasing a string character by character, modelling the JavaScript
String.prototype.toLowerCase call on the ASCII identifiers this server
manipulates. -/
def jsToLower (s : String) : String :=
  ⟨s.data.map Char.toLower⟩

/-- Check that one character list starts with another, used to model the
JavaScript String.prototype.includes substring test. -/
def listStartsWith [BEq α] : List α → List α → Bool
  | _, [] => true
  | [], _ :: _ => false
  | a :: as, b :: bs => a == b && listStartsWith as bs

/-- Check that a character list contains another as a contiguous run. -/
def listContainsSeq [BEq α] (needle : List α) : List α → Bool
  | [] => needle.isEmpty
  | a :: rest => listStartsWith (a :: rest) needle || listContainsSeq needle rest

/-- The JavaScript hay.includes(needle) substring test. -/
def strIncludes (hay needle : String) : Bool :=
  listContainsSeq needle.data hay.data

/-- Lookup in a JavaScript-object-as-association-list: the value stored at the
first (and, for the states built here, only) entry with the given key. -/
def alistGet? (m : List (String × α)) (k : String) : Option α :=
  (m.find? (fun e => e.1 == k)).map (·.2)

/-- Assignment obj[k] = v on a JavaScript object modelled as an association
list: replace the value at an existing key in place, else append the new key,
matching property insertion order. -/
def alistSet : List (String × α) → String → α → List (String × α)
  | [], k, v => [(k, v)]
  | e :: rest, k, v => if e.1 == k then (e.1, v) :: rest else e :: alistSet rest k v

/-- One record of the Reddit subreddit-search response consumed by
discoverSubreddits (src/server.js:611). -/
structure SubredditRecord where
  display_name : String
  subscribers : Nat
  over18 : Bool
  public_description : String
deriving DecidableEq

/-- Outcome of the subreddit-search HTTP call: either the parsed children
records, or a transport failure (timeout, network error, non-2xx), which the
source catches. -/
inductive RedditSearchOutcome where
  | success (children : List SubredditRecord)
  | failure
deriving DecidableEq

/-- The relevance predicate of discoverSubreddits (src/server.js:632-638):
more than 100 subscribers, not NSFW, and name contains the lowercased city or
the description contains one of the fixed vocabulary words. -/
def subredditIsRelevant (city : String) (r : SubredditRecord) : Bool :=
  r.subscribers > 100 && !r.over18 &&
    (strIncludes (jsToLower r.display_name) (jsToLower city) ||
     strIncludes (jsToLower r.public_description) "neighborhood" ||
     strIncludes (jsToLower r.public_description) "live" ||
     strIncludes (jsToLower r.public_description) "ask")

/-- Embedding of discoverSubreddits (src/server.js:611-672). On a successful
search it keeps the relevant records; with zero matches it falls back to the
four generated name patterns filtered to nonempty strings
(src/server.js:653-658); on a transport failure it returns the two-element
ultimate fallback (src/server.js:663-671). The function is total: no branch
propagates an exception, matching the try/catch wrapping of the source. -/
def discoverSubreddits (city : String) (outcome : RedditSearchOutcome) : List String :=
  match outcome with
  | .failure => [jsToLower city, "Ask" ++ city]
  | .success children =>
    let subreddits := (children.filter (subredditIsRelevant city)).map (·.display_name)
    if subreddits.length > 0 then
      subreddits
    else
      let cityLower := jsToLower city
      ([cityLower, cityLower ++ "housing", "Ask" ++ city, cityLower ++ "neighborhoods"]).filter
        (fun s => s.length > 0)

/-- One relevance verdict of the filter-model response (src/server.js:1024-1028):
a 1-based post index, a relevance flag and a reason. -/
structure Verdict where
  postIndex : Int
  isRelevant : Bool
  reason : String
deriving DecidableEq

/-- Shape of the relevance-filter model response after stripping code fences:
malformed JSON (JSON.parse throws), a JSON array of verdict records, or valid
JSON that is not an array (for example a JSON object). -/
inductive FilterParse where
  | malformed
  | arrayOf (vs : List Verdict)
  | nonArray
deriving DecidableEq

/-- The keep decision for the post at 0-based index i (src/server.js:1048-1055):
find the first verdict whose postIndex equals i+1; keep the post when it exists
and isRelevant holds, else drop it. -/
def keepPost (vs : List Verdict) (i : Nat) : Bool :=
  match vs.find? (fun s => s.postIndex == (i : Int) + 1) with
  | some s => s.isRelevant
  | none => false

/-- Index-aware filter modelling Array.prototype.filter with the index
argument, as used at src/server.js:1047. -/
def filterWithIndex (p : Nat → α → Bool) : List α → Nat → List α
  | [], _ => []
  | a :: rest, i =>
    if p i a then a :: filterWithIndex p rest (i + 1) else filterWithIndex p rest (i + 1)

/-- Embedding of filterRelevantPosts (src/server.js:1011-1060). The prompt and
model call are external; the argument resp is the parse shape of the model
response. Malformed JSON is caught and the original posts are returned
(src/server.js:1040-1045). A parsed array drives the index filter. Valid
non-array JSON is not caught: the filter callback calls relevanceScores.find,
which is not a function, so a TypeError escapes (unless the post list is empty,
in which case the callback never runs). -/
def filterRelevantPosts (posts : List String) (preferences : String) (resp : FilterParse) :
    Except JsError (List String) :=
  match resp with
  | .malformed => Except.ok posts
  | .arrayOf vs => Except.ok (filterWithIndex (fun i _ => keepPost vs i) posts 0)
  | .nonArray =>
    if posts.isEmpty then Except.ok []
    else Except.error (JsError.typeError "relevanceScores.find is not a function")

/-- Transcription of the wording of claim C6, used to compare against the
embedded filter: walk the posts with their 1-based positions and keep a post
exactly when its matching verdict exists and has isRelevant = true. -/
def keptPerClaim (vs : List Verdict) : List String → Int → List String
  | [], _ => []
  | p :: rest, pos =>
    match vs.find? (fun s => s.postIndex == pos) with
    | some s =>
      if s.isRelevant then p :: keptPerClaim vs rest (pos + 1) else keptPerClaim vs rest (pos + 1)
    | none => keptPerClaim vs rest (pos + 1)

/-- Raw place record returned by the Google Places nearby search, before the
source maps it into its own Place shape. Coordinates are opaque numbers here
(no arithmetic is performed on them). -/
structure RawPlace where
  name : String
  lat : Int
  lng : Int
deriving DecidableEq

/-- Place shape produced by getAllAmenityCoordinates and getAmenityCoordinates
(src/server.js:795-800, 856-861): name, coordinates and the requested amenity
type. -/
structure Place where
  name : String
  lat : Int
  lng : Int
  type : String
deriving DecidableEq

/-- Embedding of getAllAmenityCoordinates (src/server.js:722-805): the provider
interaction (per-brand keyword queries with local substring filtering, or up to
three pages of pagination) determines which raw places accumulate and is
abstracted as the rawAllPlaces function of the environment; the function then
tags every accumulated place with the requested amenity type. Provider errors
are caught in the source and yield an empty accumulation. -/
def getAllAmenityCoordinates (rawAllPlaces : String → List RawPlace) (amenityType : String) :
    List Place :=
  (rawAllPlaces amenityType).map (fun p => ⟨p.name, p.lat, p.lng, amenityType⟩)

/-- Embedding of getAmenityCoordinates (src/server.js:808-866), the
display-limited lookup: raw places accumulate from the provider (brand-filtered
or generic), then places.slice(0, limit) is tagged with the amenity type. A
missing city geocode returns the empty list (src/server.js:811). -/
def getAmenityCoordinates (cityCoords : Option (Int × Int)) (raw : List RawPlace) (limit : Nat)
    (amenityType : String) : List Place :=
  match cityCoords with
  | none => []
  | some _ => (raw.take limit).map (fun p => ⟨p.name, p.lat, p.lng, amenityType⟩)

/-- In-place increment of the per-type counter object
(src/server.js:928-932): bump the existing entry, else append the type with
count 1, preserving property insertion order. -/
def bumpInner : List (String × Nat) → String → List (String × Nat)
  | [], ty => [(ty, 1)]
  | e :: rest, ty => if e.1 == ty then (e.1, e.2 + 1) :: rest else e :: bumpInner rest ty

/-- In-place update of the per-neighborhood counter object
(src/server.js:923-932): bump the inner counter of an existing neighborhood,
else append the neighborhood with a fresh inner counter. -/
def bumpOuter : List (String × List (String × Nat)) → String → String →
    List (String × List (String × Nat))
  | [], nb, ty => [(nb, bumpInner [] ty)]
  | e :: rest, nb, ty =>
    if e.1 == nb then (e.1, bumpInner e.2 ty) :: rest else e :: bumpOuter rest nb ty

/-- In-place push onto the per-type place list (src/server.js:930-933). -/
def pushInner : List (String × List Place) → String → Place → List (String × List Place)
  | [], ty, pl => [(ty, [pl])]
  | e :: rest, ty, pl =>
    if e.1 == ty then (e.1, e.2 ++ [pl]) :: rest else e :: pushInner rest ty pl

/-- In-place update of the per-neighborhood place-list object
(src/server.js:923-933). -/
def pushOuter : List (String × List (String × List Place)) → String → String → Place →
    List (String × List (String × List Place))
  | [], nb, ty, pl => [(nb, pushInner [] ty pl)]
  | e :: rest, nb, ty, pl =>
    if e.1 == nb then (e.1, pushInner e.2 ty pl) :: rest else e :: pushOuter rest nb ty pl

/-- Mutable state of the aggregation loop of scoreNeighborhoodsByAmenities:
the neighborhoodScores and neighborhoodAmenities objects
(src/server.js:909-910). -/
structure AggState where
  scores : List (String × List (String × Nat))
  amenities : List (String × List (String × List Place))
deriving DecidableEq

/-- One iteration of the inner aggregation loop (src/server.js:921-935):
resolve the place to a neighborhood; a null resolution drops the place,
otherwise both objects are bumped for that neighborhood and amenity type. The
source creates missing outer and inner keys for both objects under the same
condition, which the two independent updates reproduce. -/
def aggStep (resolve : Int → Int → Option String) (st : AggState) (it : String × Place) :
    AggState :=
  match resolve it.2.lat it.2.lng with
  | none => st
  | some nb => ⟨bumpOuter st.scores nb it.1, pushOuter st.amenities nb it.1 it.2⟩

/-- The flattened iteration space of the two nested loops of
scoreNeighborhoodsByAmenities (src/server.js:913-935): for each requested
amenity type in order, each place fetched for that type, tagged with the type. -/
def scoreItems (rawAllPlaces : String → List RawPlace) (amenitiesNeeded : List String) :
    List (String × Place) :=
  amenitiesNeeded.flatMap (fun ty => (getAllAmenityCoordinates rawAllPlaces ty).map (fun p => (ty, p)))

/-- Run the aggregation loop over a flattened item list starting from empty
objects. -/
def runAgg (resolve : Int → Int → Option String) (items : List (String × Place)) : AggState :=
  items.foldl (aggStep resolve) ⟨[], []⟩

/-- One scored neighborhood aggregate (src/server.js:948-954). The field
amenityTypes holds Object.keys(amenityCount).length, called amenityTypeCount in
the specification. -/
structure ScoredNeighborhood where
  neighborhood : String
  amenityScore : Nat
  amenityCounts : List (String × Nat)
  totalAmenities : Nat
  amenityTypes : Nat
deriving DecidableEq

/-- The mapping step of src/server.js:942-954: derive the aggregate record of
one neighborhood from its counter object, with
score = totalAmenities + amenityTypes * 5. -/
def mkScoredRecord (nb : String) (counts : List (String × Nat)) : ScoredNeighborhood :=
  let totalAmenities := (counts.map (·.2)).sum
  let amenityTypes := counts.length
  { neighborhood := nb
    amenityScore := totalAmenities + amenityTypes * 5
    amenityCounts := counts
    totalAmenities := totalAmenities
    amenityTypes := amenityTypes }

/-- Object.entries of the score object mapped through the record builder
(src/server.js:942-954), in insertion order, before sorting. -/
def mkScored (scores : List (String × List (String × Nat))) : List ScoredNeighborhood :=
  scores.map (fun e => mkScoredRecord e.1 e.2)

/-- Stable insertion of one record into a list sorted by descending
amenityScore: the record passes every entry with a strictly smaller score and
stops behind entries scoring at least as much. -/
def insertDesc (x : ScoredNeighborhood) : List ScoredNeighborhood → List ScoredNeighborhood
  | [] => [x]
  | y :: ys => if y.amenityScore < x.amenityScore then x :: y :: ys else y :: insertDesc x ys

/-- Stable sort by descending amenityScore, modelling the comparator
(a, b) => b.amenityScore - a.amenityScore at src/server.js:955. -/
def sortByScoreDesc (l : List ScoredNeighborhood) : List ScoredNeighborhood :=
  l.foldr insertDesc []

/-- Scored output of the aggregation run over a flattened item list: build the
records and sort them by descending score. -/
def scoredFromItems (resolve : Int → Int → Option String) (items : List (String × Place)) :
    List ScoredNeighborhood :=
  sortByScoreDesc (mkScored (runAgg resolve items).scores)

/-- Embedding of scoreNeighborhoodsByAmenities (src/server.js:906-963):
aggregate every fetched place of every requested amenity type by resolved
neighborhood, then return the sorted score records together with the
per-neighborhood place lists. The specificBrands argument of the source only
shapes the provider queries and is absorbed into rawAllPlaces. -/
def scoreNeighborhoodsByAmenities (resolve : Int → Int → Option String)
    (rawAllPlaces : String → List RawPlace) (amenitiesNeeded : List String) :
    List ScoredNeighborhood × List (String × List (String × List Place)) :=
  (scoredFromItems resolve (scoreItems rawAllPlaces amenitiesNeeded),
   (runAgg resolve (scoreItems rawAllPlaces amenitiesNeeded)).amenities)

/-- Lookup of one neighborhood in a scored list by name, the observation used
to compare two aggregation runs. -/
def findScored (l : List ScoredNeighborhood) (nb : String) : Option ScoredNeighborhood :=
  l.find? (fun r => r.neighborhood == nb)

/-- One entry of the amenities array parsed from the amenity-extraction model
response (src/server.js:1248-1260). -/
structure AmenityEntry where
  type : String
  specificNames : List String
deriving DecidableEq

/-- Amenity-extraction step of the amenity-first handler
(src/server.js:1286-1297): a parsed response yields the type list and the
brand map built by successive object assignments; a parse failure (or a parsed
object without a usable amenities array, which throws inside the same try) is
caught and yields the fixed defaults with an empty brand map. No branch raises
to the caller. -/
def extractAmenities (parse : Option (List AmenityEntry)) :
    List String × List (String × List String) :=
  match parse with
  | some entries =>
    (entries.map (·.type),
     entries.foldl (fun m a => alistSet m a.type a.specificNames) [])
  | none => (["gym", "grocery_or_supermarket"], [])

/-- Request body of POST /api/recommendations: each field is absent or a
string. -/
structure ReqBody where
  city : Option String
  preferences : Option String
deriving DecidableEq

/-- JavaScript falsiness of an optional string field, as tested by the guard
at src/server.js:1236 (absent and empty strings are falsy). -/
def isFalsy : Option String → Bool
  | none => true
  | some s => s.isEmpty

/-- Environment of one amenity-first request: the value of every external call
the handler performs, in the order the source performs them. -/
structure EnvB where
  amenityParse : Option (List AmenityEntry)
  rawAllPlaces : String → List RawPlace
  resolve : Int → Int → Option String
  neighborhoodExtractionParse : Option (List String)
  qualQueriesParse : Option (List String)
  scrapedPosts : List String
  filterResp : FilterParse
  qualScoresParse : Option (List (String × Int))
  concernsParse : Option (List (String × List String))
  cityCoords : Option (Int × Int)
  rawDisplayPlaces : String → List RawPlace

/-- One recommendation entry of the amenity-first response
(src/server.js:1487-1492). -/
structure RecEntry where
  neighborhood : String
  matchReasons : List String
  concerns : List String
  amenityBreakdown : List (String × Nat)
deriving DecidableEq

/-- The recommendations object of the amenity-first response
(src/server.js:1474-1494). -/
structure RecsB where
  recommendations : List RecEntry
deriving DecidableEq

/-- The mapData object of the amenity-first response (src/server.js:1506-1536). -/
structure MapDataB where
  cityCoordinates : Option (Int × Int)
  amenities : List (String × List Place)
  neighborhoodAmenities : List (String × List (String × List Place))
deriving DecidableEq

/-- Full amenity-first response body (src/server.js:1540-1545). -/
structure RecResponseB where
  city : String
  userPreferences : String
  recommendations : RecsB
  mapData : MapDataB
deriving DecidableEq

/-- HTTP outcome of the amenity-first handler: 400, 500 (from the outermost
catch) or the 200 response body. -/
inductive HandlerResultB where
  | badRequest (error : String)
  | serverError (error : String)
  | okResp (resp : RecResponseB)
deriving DecidableEq

/-- Deterministic fallback concerns for one neighborhood
(src/server.js:1449-1471): flag few amenities, missing types, and missing
community feedback; a neutral placeholder when nothing applies. -/
def fallbackConcerns (n : ScoredNeighborhood) (amenitiesNeeded : List String)
    (redditPosts : List String) : List String :=
  let concerns : List String := []
  let concerns := if n.totalAmenities < 5 then
    concerns ++ ["Limited number of requested amenities nearby"] else concerns
  let concerns := if n.amenityTypes < amenitiesNeeded.length then
    concerns ++ ["Not all requested amenity types available in this neighborhood"] else concerns
  let concerns := if redditPosts.isEmpty then
    concerns ++ ["Limited community feedback available"] else concerns
  if concerns.isEmpty then ["Research more on community forums and local resources"] else concerns

/-- The concern-map completion loop (src/server.js:1449-1471): for each of the
top five neighborhoods whose model-produced concern list is missing or empty,
assign the fallback concerns. -/
def completeConcerns (scored : List ScoredNeighborhood) (amenitiesNeeded : List String)
    (redditPosts : List String) (m0 : List (String × List String)) :
    List (String × List String) :=
  (scored.take 5).foldl (fun m n =>
    match alistGet? m n.neighborhood with
    | some cs => if cs.isEmpty then alistSet m n.neighborhood (fallbackConcerns n amenitiesNeeded redditPosts) else m
    | none => alistSet m n.neighborhood (fallbackConcerns n amenitiesNeeded redditPosts)) m0

/-- One response recommendation built from a scored neighborhood
(src/server.js:1475-1493): reasons synthesized from the aggregate counts and
post availability, concerns looked up in the completed concern map. -/
def mkRecEntry (n : ScoredNeighborhood) (amenitiesNeeded : List String)
    (redditPosts : List String) (concernsMap : List (String × List String)) : RecEntry :=
  let reasons : List String := []
  let reasons := if n.totalAmenities > 0 then
    reasons ++ [toString n.totalAmenities ++ " " ++
      (if amenitiesNeeded.length > 1 then "amenities" else "amenity") ++ " nearby"] else reasons
  let reasons := if n.amenityCounts.length > 0 then
    reasons ++ [toString n.amenityCounts.length ++ " types of amenities"] else reasons
  let reasons := if redditPosts.length > 0 then
    reasons ++ ["Well-reviewed on community forums"] else reasons
  { neighborhood := n.neighborhood
    matchReasons := if reasons.isEmpty then ["Strong neighborhood match"] else reasons
    concerns := (alistGet? concernsMap n.neighborhood).getD []
    amenityBreakdown := n.amenityCounts }

/-- The recommendations list of the amenity-first response
(src/server.js:1474-1494): the top five scored neighborhoods mapped through
the entry builder. -/
def recsListB (scoredNeighborhoods : List ScoredNeighborhood) (amenitiesNeeded : List String)
    (redditPosts : List String) (concernsMap : List (String × List String)) : List RecEntry :=
  (scoredNeighborhoods.take 5).map
    (fun n => mkRecEntry n amenitiesNeeded redditPosts concernsMap)

/-- The per-type display amenities of the amenity-first response
(src/server.js:1512-1523): each requested type is looked up with a display
limit of 10; a per-type provider error yields the empty list and is absorbed
in rawDisplayPlaces. -/
def mapAmenitiesB (env : EnvB) (amenitiesNeeded : List String) : List (String × List Place) :=
  amenitiesNeeded.map (fun ty =>
    (ty, getAmenityCoordinates env.cityCoords (env.rawDisplayPlaces ty) 10 ty))

/-- The per-neighborhood amenity subsets of the amenity-first response
(src/server.js:1525-1536): for each returned recommendation and each requested
type, the first five collected places, or the empty list when the neighborhood
or type is absent. -/
def nbAmenitiesOut (recsList : List RecEntry)
    (neighborhoodAmenities : List (String × List (String × List Place)))
    (amenitiesNeeded : List String) : List (String × List (String × List Place)) :=
  recsList.map (fun rec =>
    (rec.neighborhood, amenitiesNeeded.map (fun ty =>
      (ty,
        match (alistGet? neighborhoodAmenities rec.neighborhood).bind
            (fun inner => alistGet? inner ty) with
        | some lst => lst.take 5
        | none => []))))

/-- Steps 3 to 9 of the amenity-first handler (src/server.js:1351-1545), the
segment after a nonempty scored-neighborhood list is available: qualitative
scraping and filtering (the filter may throw), then assembly. The source also
computes the joined redditData string and the qualitative score map at this
point; neither flows into the response (redditData only feeds later prompts
and qualitativeScores is never read), so only the throw behaviour of the
filter step is retained here. -/
def assembleB (city preferences : String) (amenitiesNeeded : List String)
    (scoredNeighborhoods : List ScoredNeighborhood)
    (neighborhoodAmenities : List (String × List (String × List Place)))
    (env : EnvB) : Except JsError HandlerResultB :=
  match (if env.scrapedPosts.isEmpty then Except.ok []
         else filterRelevantPosts env.scrapedPosts preferences env.filterResp) with
  | Except.error e => Except.error e
  | Except.ok _filteredPosts =>
    Except.ok (HandlerResultB.okResp
      { city := city
        userPreferences := preferences
        recommendations := ⟨recsListB scoredNeighborhoods amenitiesNeeded env.scrapedPosts
          (completeConcerns scoredNeighborhoods amenitiesNeeded env.scrapedPosts
            (env.concernsParse.getD []))⟩
        mapData := ⟨env.cityCoords, mapAmenitiesB env amenitiesNeeded,
          nbAmenitiesOut
            (recsListB scoredNeighborhoods amenitiesNeeded env.scrapedPosts
              (completeConcerns scoredNeighborhoods amenitiesNeeded env.scrapedPosts
                (env.concernsParse.getD [])))
            neighborhoodAmenities amenitiesNeeded⟩ })

/-- The amenity type list the pipeline proceeds with after step 1
(src/server.js:1286-1297). -/
def amenitiesNeededOf (env : EnvB) : List String :=
  (extractAmenities env.amenityParse).1

/-- Body of the amenity-first POST /api/recommendations handler
(src/server.js:1228-1545), up to the outermost catch. After input validation
and amenity extraction, a nonempty amenity list is scored; a zero-neighborhood
scoring result returns 400. The no-amenity branch builds the
neighborhood-extraction prompt, whose template literal reads redditData; that
const is declared only at src/server.js:1381, so the access is in the temporal
dead zone and throws a ReferenceError, making the rest of that branch
(including its Downtown fallback at src/server.js:1347) unreachable. -/
def recommendationsBodyB (req : ReqBody) (env : EnvB) : Except JsError HandlerResultB :=
  if isFalsy req.city || isFalsy req.preferences then
    Except.ok (HandlerResultB.badRequest "City and preferences are required")
  else if (amenitiesNeededOf env).isEmpty then
    Except.error (JsError.referenceError "Cannot access redditData before initialization")
  else if (scoreNeighborhoodsByAmenities env.resolve env.rawAllPlaces
      (amenitiesNeededOf env)).1.isEmpty then
    Except.ok (HandlerResultB.badRequest
      ("No neighborhoods found with requested amenities in " ++ (req.city).getD ""))
  else
    assembleB ((req.city).getD "") ((req.preferences).getD "") (amenitiesNeededOf env)
      (scoreNeighborhoodsByAmenities env.resolve env.rawAllPlaces (amenitiesNeededOf env)).1
      (scoreNeighborhoodsByAmenities env.resolve env.rawAllPlaces (amenitiesNeededOf env)).2
      env

/-- The amenity-first POST /api/recommendations handler with its outermost
try/catch (src/server.js:1228-1550): an escaped exception becomes a 500 with
the error message. -/
def recommendationsHandlerB (req : ReqBody) (env : EnvB) : HandlerResultB :=
  match recommendationsBodyB req env with
  | Except.ok r => r
  | Except.error e => HandlerResultB.serverError e.message

/-- Step-1 parse result of the query-first handler (src/server.js:2035-2054):
extracted preference phrases and Reddit search queries. This JSON.parse call is
not wrapped in its own try, so a missing value models an escaped SyntaxError. -/
structure ParsedPrefs where
  preferences : List String
  redditQueries : List String
deriving DecidableEq

/-- One recommendation of the query-first analysis response
(src/server.js:2083-2093). -/
structure AnalysisRec where
  neighborhood : String
  matchScore : Rat
  matchReasons : List String
  concerns : List String
deriving DecidableEq

/-- The parsed analysis object of the query-first handler
(src/server.js:2082-2093). -/
structure AnalysisParsed where
  recommendations : List AnalysisRec
  summary : String
deriving DecidableEq

/-- Outcome of the analysis-response handling (src/server.js:2101-2128): no
JSON object found by the regex (fallback response), a parsed object, or a
JSON.parse throw on the matched text (escapes to the outer catch). -/
inductive AnalysisOutcome where
  | noJson
  | parsed (p : AnalysisParsed)
  | parseError (msg : String)
deriving DecidableEq

/-- Neighborhood boundary record built from the Nominatim lookup
(src/server.js:1705-1715). -/
structure NeighborhoodBoundary where
  neighborhood : String
  boundaryType : String
  center : Option (Int × Int)
deriving DecidableEq

/-- Environment of one query-first request (the src/server.js:2015-2227
variant): the value of every external call in order. -/
structure EnvC where
  parsedPrefs : Option ParsedPrefs
  scrapedPosts : List String
  filterResp : FilterParse
  analysisOutcome : AnalysisOutcome
  cityCoords : Option (Int × Int)
  amenityTypesParse : Option (List String)
  boundaryFor : String → Option NeighborhoodBoundary
  rawDisplayPlaces : String → List RawPlace

/-- The mapData object of the query-first response (src/server.js:2181-2185). -/
structure MapDataC where
  cityCoordinates : Option (Int × Int)
  amenities : List (String × List Place)
  neighborhoods : List NeighborhoodBoundary
deriving DecidableEq

/-- Query-first response body: the parsed (or fallback) recommendations object
is passed through as is; the early fallback return at src/server.js:2121-2125
carries no mapData. -/
structure RecResponseC where
  city : String
  userPreferences : String
  recommendations : AnalysisParsed
  mapData : Option MapDataC
deriving DecidableEq

/-- HTTP outcome of the query-first handler. -/
inductive HandlerResultC where
  | badRequest (error : String)
  | serverError (error : String)
  | okResp (resp : RecResponseC)
deriving DecidableEq

/-- Body of the query-first POST /api/recommendations handler
(src/server.js:2015-2222): validation, step-1 parse (uncaught on failure),
scrape and relevance filter, analysis parse with the no-JSON Downtown fallback
(early return without mapData), then map-data assembly with the default
display limit of 5 places per amenity type. -/
def recommendationsBodyC (req : ReqBody) (env : EnvC) : Except JsError HandlerResultC :=
  if isFalsy req.city || isFalsy req.preferences then
    Except.ok (HandlerResultC.badRequest "City and preferences are required")
  else
    match env.parsedPrefs with
    | none => Except.error (JsError.syntaxError "Unexpected token in JSON")
    | some parsedData =>
      match (if env.scrapedPosts.isEmpty then Except.ok []
             else filterRelevantPosts env.scrapedPosts ((req.preferences).getD "")
               env.filterResp) with
      | Except.error e => Except.error e
      | Except.ok _filteredPosts =>
        match env.analysisOutcome with
        | .parseError msg => Except.error (JsError.syntaxError msg)
        | .noJson =>
          Except.ok (HandlerResultC.okResp
            { city := (req.city).getD ""
              userPreferences := (req.preferences).getD ""
              recommendations :=
                { recommendations := [
                    { neighborhood := "Downtown"
                      matchScore := (7 : Rat) / 10
                      matchReasons := parsedData.preferences
                      concerns := ["Limited Reddit data available"] }]
                  summary := "Unable to find specific Reddit data. Please verify the city name and try again." }
              mapData := none })
        | .parsed recommendations =>
          Except.ok (HandlerResultC.okResp
            { city := (req.city).getD ""
              userPreferences := (req.preferences).getD ""
              recommendations := recommendations
              mapData := some
                ⟨env.cityCoords,
                 (env.amenityTypesParse.getD ["gym", "grocery_or_supermarket"]).map (fun ty =>
                   (ty, getAmenityCoordinates env.cityCoords (env.rawDisplayPlaces ty) 5 ty)),
                 recommendations.recommendations.filterMap
                   (fun rec => env.boundaryFor rec.neighborhood)⟩ })

/-- The query-first POST /api/recommendations handler with its outermost
try/catch (src/server.js:2015-2227). -/
def recommendationsHandlerC (req : ReqBody) (env : EnvC) : HandlerResultC :=
  match recommendationsBodyC req env with
  | Except.ok r => r
  | Except.error e => HandlerResultC.serverError e.message

/-- Number of entries of recommendations.recommendations in a successful
query-first response. -/
def handlerCRecCount : HandlerResultC → Option Nat
  | .okResp r => some r.recommendations.recommendations.length
  | _ => none

/-- Cap obligations claimed for an amenity-first response: at most five
recommendations, at most five places per neighborhood amenity list, at most
ten places per display amenity type. -/
def respectsCapsB (res : HandlerResultB) : Prop :=
  match res with
  | .okResp r =>
    r.recommendations.recommendations.length ≤ 5
    ∧ (∀ e ∈ r.mapData.neighborhoodAmenities, ∀ te ∈ e.2, te.2.length ≤ 5)
    ∧ (∀ ae ∈ r.mapData.amenities, ae.2.length ≤ 10)
  | _ => True

/-- Cap obligation on the display amenity lists of a query-first response: at
most five places per amenity type. -/
def respectsCapsC (res : HandlerResultC) : Prop :=
  match res with
  | .okResp r =>
    match r.mapData with
    | some md => ∀ ae ∈ md.amenities, ae.2.length ≤ 5
    | none => True
  | _ => True

/-- Projection of the aggregation step to the score object alone, used to
reason about counts independently of the collected place lists. -/
def scoresStep (resolve : Int → Int → Option String)
    (st : List (String × List (String × Nat))) (it : String × Place) :
    List (String × List (String × Nat)) :=
  match resolve it.2.lat it.2.lng with
  | none => st
  | some nb => bumpOuter st nb it.1

/-- The count stored for one neighborhood and amenity type in a score object,
zero when either key is absent. -/
def countOf (st : List (String × List (String × Nat))) (nb ty : String) : Nat :=
  (alistGet? ((alistGet? st nb).getD []) ty).getD 0

/-- Decision that one aggregation item contributes to the counter of the given
neighborhood and amenity type. -/
def itemPred (resolve : Int → Int → Option String) (nb ty : String) (it : String × Place) : Bool :=
  it.1 == ty && resolve it.2.lat it.2.lng == some nb

/-- Decision that one aggregation item is attributed to the given
neighborhood. -/
def itemPredNb (resolve : Int → Int → Option String) (nb : String) (it : String × Place) : Bool :=
  resolve it.2.lat it.2.lng == some nb

/-- Structural invariant of the score object: distinct neighborhood keys, and
each inner counter object has distinct type keys, at least one entry, and only
positive counts. -/
def stWF (st : List (String × List (String × Nat))) : Prop :=
  (st.map (·.1)).Nodup ∧
    ∀ e ∈ st, ((e.2.map (·.1)).Nodup ∧ e.2 ≠ [] ∧ ∀ c ∈ e.2, 0 < c.2)

/-- Concrete neighborhood resolution used in the witness scenarios: latitude 1
resolves to Downtown, latitude 2 to Uptown, everything else to no
neighborhood. -/
def resolveW : Int → Int → Option String :=
  fun la _ => if la = 1 then some "Downtown" else if la = 2 then some "Uptown" else none

/-- Concrete provider results used in the witness scenarios: one gym. -/
def rawW : String → List RawPlace :=
  fun _ => [⟨"Gym A", 1, 1⟩]

/-- Witness aggregation item: a gym in Downtown. -/
def itemGymA : String × Place := ("gym", ⟨"Gym A", 1, 1, "gym"⟩)

/-- Witness aggregation item: a gym in Uptown. -/
def itemGymB : String × Place := ("gym", ⟨"Gym B", 2, 2, "gym"⟩)

/-- The aggregate record produced for Downtown in the witness scenario. -/
def recW : ScoredNeighborhood := ⟨"Downtown", 6, [("gym", 1)], 1, 1⟩

/-- Request body with both fields present. -/
def reqSpring : ReqBody := ⟨some "Springfield", some "quiet area"⟩

/-- Baseline amenity-first environment: one gym extracted, one place found,
resolving to Downtown; no posts scraped; every model parse trivial. -/
def envBBase : EnvB :=
  { amenityParse := some [⟨"gym", []⟩]
    rawAllPlaces := rawW
    resolve := resolveW
    neighborhoodExtractionParse := none
    qualQueriesParse := none
    scrapedPosts := []
    filterResp := FilterParse.malformed
    qualScoresParse := none
    concernsParse := none
    cityCoords := some (0, 0)
    rawDisplayPlaces := fun _ => [] }

/-- Environment whose amenity scoring finds no neighborhoods: the provider
returns no places. -/
def envBNoPlaces : EnvB := { envBBase with rawAllPlaces := fun _ => [] }

/-- Environment whose relevance-filter response is valid JSON but not an
array, with one scraped post. -/
def envBNonArray : EnvB :=
  { envBBase with scrapedPosts := ["Title: sample post"], filterResp := FilterParse.nonArray }

/-- Environment whose amenity extraction parses to an empty amenity list. -/
def envBNoAmenities : EnvB := { envBBase with amenityParse := some [] }

/-- Query-first environment whose analysis response parses to six
recommendations. -/
def envCSix : EnvC :=
  { parsedPrefs := some ⟨[], []⟩
    scrapedPosts := []
    filterResp := FilterParse.malformed
    analysisOutcome := AnalysisOutcome.parsed ⟨List.replicate 6 ⟨"Midtown", 0, [], []⟩, "summary"⟩
    cityCoords := none
    amenityTypesParse := some []
    boundaryFor := fun _ => none
    rawDisplayPlaces := fun _ => [] }


theorem alistGet?_nil (k : String) : alistGet? ([] : List (String × α)) k = none := rfl

theorem alistGet?_cons (e : String × α) (l : List (String × α)) (k : String) :
    alistGet? (e :: l) k = if e.1 == k then some e.2 else alistGet? l k := by
  by_cases h : e.1 == k <;> simp [alistGet?, List.find?_cons, h]

theorem alistGet?_bumpInner (inner : List (String × Nat)) (ty' ty : String) :
    alistGet? (bumpInner inner ty') ty =
      if ty = ty' then some (((alistGet? inner ty').getD 0) + 1) else alistGet? inner ty := by
  induction inner with
  | nil =>
    by_cases h : ty = ty'
    · subst h; simp [bumpInner, alistGet?_cons, alistGet?_nil]
    · have hb : (ty' == ty) = false := by
        simp [beq_eq_false_iff_ne]; exact fun hh => h hh.symm
      simp [bumpInner, alistGet?_cons, alistGet?_nil, h, hb]
  | cons e rest ih =>
    by_cases he : e.1 = ty'
    · subst he
      simp only [bumpInner, beq_self_eq_true, if_true]
      by_cases h : ty = e.1
      · subst h
        simp [alistGet?_cons]
      · have hb : (e.1 == ty) = false := by
          simp [beq_eq_false_iff_ne]; exact fun hh => h hh.symm
        simp [alistGet?_cons, hb, h]
    · have hb : (e.1 == ty') = false := by simpa [beq_eq_false_iff_ne] using he
      simp only [bumpInner, hb, if_false]
      by_cases h : ty = e.1
      · subst h
        simp [alistGet?_cons, he]
      · have hb2 : (e.1 == ty) = false := by
          simp [beq_eq_false_iff_ne]; exact fun hh => h hh.symm
        simp [alistGet?_cons, hb2, he, ih]

theorem alistGet?_bumpOuter (st : List (String × List (String × Nat))) (nb' ty nb : String) :
    alistGet? (bumpOuter st nb' ty) nb =
      if nb = nb' then some (bumpInner ((alistGet? st nb').getD []) ty) else alistGet? st nb := by
  induction st with
  | nil =>
    by_cases h : nb = nb'
    · subst h; simp [bumpOuter, alistGet?_cons, alistGet?_nil]
    · have hb : (nb' == nb) = false := by
        simp [beq_eq_false_iff_ne]; exact fun hh => h hh.symm
      simp [bumpOuter, alistGet?_cons, alistGet?_nil, h, hb]
  | cons e rest ih =>
    by_cases he : e.1 = nb'
    · subst he
      simp only [bumpOuter, beq_self_eq_true, if_true]
      by_cases h : nb = e.1
      · subst h
        simp [alistGet?_cons]
      · have hb : (e.1 == nb) = false := by
          simp [beq_eq_false_iff_ne]; exact fun hh => h hh.symm
        simp [alistGet?_cons, hb, h]
    · have hb : (e.1 == nb') = false := by simpa [beq_eq_false_iff_ne] using he
      simp only [bumpOuter, hb, if_false]
      by_cases h : nb = e.1
      · subst h
        simp [alistGet?_cons, he]
      · have hb2 : (e.1 == nb) = false := by
          simp [beq_eq_false_iff_ne]; exact fun hh => h hh.symm
        simp [alistGet?_cons, hb2, he, ih]

theorem countOf_scoresStep (resolve : Int → Int → Option String)
    (st : List (String × List (String × Nat))) (it : String × Place) (nb ty : String) :
    countOf (scoresStep resolve st it) nb ty =
      countOf st nb ty + (if itemPred resolve nb ty it then 1 else 0) := by
  unfold scoresStep itemPred
  cases hres : resolve it.2.lat it.2.lng with
  | none => simp
  | some nb'' =>
    by_cases hnb : nb = nb''
    · subst hnb
      by_cases hty : ty = it.1
      · subst hty
        simp [countOf, alistGet?_bumpOuter, alistGet?_bumpInner]
      · have hb : (it.1 == ty) = false := by
          simp [beq_eq_false_iff_ne]; exact fun hh => hty hh.symm
        simp [countOf, alistGet?_bumpOuter, alistGet?_bumpInner, hty, hb]
    · have hb : (some nb'' == some nb) = false := by
        simp [beq_eq_false_iff_ne]
        exact fun hh => hnb hh.symm
      simp [countOf, alistGet?_bumpOuter, hnb, hb]

theorem countOf_foldl (resolve : Int → Int → Option String) (items : List (String × Place)) :
    ∀ st nb ty, countOf (items.foldl (scoresStep resolve) st) nb ty =
      countOf st nb ty + items.countP (itemPred resolve nb ty) := by
  induction items with
  | nil => intro st nb ty; simp
  | cons a items ih =>
    intro st nb ty
    simp only [List.foldl_cons, List.countP_cons, ih, countOf_scoresStep]
    omega

theorem scores_foldl (resolve : Int → Int → Option String) (items : List (String × Place)) :
    ∀ st : AggState, (items.foldl (aggStep resolve) st).scores =
      items.foldl (scoresStep resolve) st.scores := by
  induction items with
  | nil => intro st; rfl
  | cons a items ih =>
    intro st
    simp only [List.foldl_cons, ih]
    congr 1
    unfold aggStep scoresStep
    cases resolve a.2.lat a.2.lng <;> rfl

theorem countOf_runAgg (resolve : Int → Int → Option String) (items : List (String × Place))
    (nb ty : String) :
    countOf (runAgg resolve items).scores nb ty = items.countP (itemPred resolve nb ty) := by
  unfold runAgg
  rw [scores_foldl, countOf_foldl]
  simp [countOf, alistGet?_nil]

theorem bumpInner_keys (inner : List (String × Nat)) (ty : String) :
    (bumpInner inner ty).map (·.1) =
      if ty ∈ inner.map (·.1) then inner.map (·.1) else inner.map (·.1) ++ [ty] := by
  induction inner with
  | nil => simp [bumpInner]
  | cons e rest ih =>
    by_cases he : e.1 = ty
    · subst he
      simp [bumpInner]
    · have hb : (e.1 == ty) = false := by simpa [beq_eq_false_iff_ne] using he
      have hne : ¬ ty = e.1 := fun hh => he hh.symm
      have hmem : (ty ∈ (e :: rest).map (·.1)) ↔ (ty ∈ rest.map (·.1)) := by
        simp [List.mem_cons]
        intro hh
        exact absurd hh.symm he
      by_cases hm : ty ∈ rest.map (·.1)
      · simp [bumpInner, hb, ih, hm, hmem, hne]
      · simp [bumpInner, hb, ih, hm, hmem, hne]

theorem bumpInner_ne_nil (inner : List (String × Nat)) (ty : String) :
    bumpInner inner ty ≠ [] := by
  cases inner with
  | nil => simp [bumpInner]
  | cons e rest =>
    by_cases hb : (e.1 == ty) <;> simp [bumpInner, hb]

theorem bumpInner_pos (inner : List (String × Nat)) (ty : String)
    (h : ∀ c ∈ inner, 0 < c.2) : ∀ c ∈ bumpInner inner ty, 0 < c.2 := by
  induction inner with
  | nil => simp [bumpInner]
  | cons e rest ih =>
    by_cases hb : (e.1 == ty)
    · simp only [bumpInner, hb, if_true]
      intro c hc
      rcases List.mem_cons.1 hc with hc | hc
      · subst hc; simp
      · exact h c (List.mem_cons_of_mem _ hc)
    · simp only [bumpInner, hb, if_false]
      intro c hc
      rcases List.mem_cons.1 hc with hc | hc
      · rw [hc]; exact h e (List.mem_cons_self _ _)
      · exact ih (fun c hc => h c (List.mem_cons_of_mem _ hc)) c hc

theorem bumpInner_keys_nodup (inner : List (String × Nat)) (ty : String)
    (h : (inner.map (·.1)).Nodup) : ((bumpInner inner ty).map (·.1)).Nodup := by
  rw [bumpInner_keys]
  by_cases hm : ty ∈ inner.map (·.1)
  · simpa [hm] using h
  · simp only [hm, if_false]
    rw [List.nodup_append]
    exact ⟨h, List.nodup_singleton ty, by simpa [List.disjoint_singleton] using hm⟩

theorem bumpOuter_keys (st : List (String × List (String × Nat))) (nb ty : String) :
    (bumpOuter st nb ty).map (·.1) =
      if nb ∈ st.map (·.1) then st.map (·.1) else st.map (·.1) ++ [nb] := by
  induction st with
  | nil => simp [bumpOuter]
  | cons e rest ih =>
    by_cases he : e.1 = nb
    · subst he
      simp [bumpOuter]
    · have hb : (e.1 == nb) = false := by simpa [beq_eq_false_iff_ne] using he
      have hne : ¬ nb = e.1 := fun hh => he hh.symm
      have hmem : (nb ∈ (e :: rest).map (·.1)) ↔ (nb ∈ rest.map (·.1)) := by
        simp [List.mem_cons]
        intro hh
        exact absurd hh.symm he
      by_cases hm : nb ∈ rest.map (·.1)
      · simp [bumpOuter, hb, ih, hm, hmem, hne]
      · simp [bumpOuter, hb, ih, hm, hmem, hne]

theorem stWF_nil : stWF [] := by
  constructor
  · simp
  · intro e he; cases he

theorem stWF_bumpOuter (st : List (String × List (String × Nat))) (nb ty : String)
    (h : stWF st) : stWF (bumpOuter st nb ty) := by
  obtain ⟨hout, hin⟩ := h
  constructor
  · rw [bumpOuter_keys]
    by_cases hm : nb ∈ st.map (·.1)
    · simpa [hm] using hout
    · simp only [hm, if_false]
      rw [List.nodup_append]
      exact ⟨hout, List.nodup_singleton nb, by simpa [List.disjoint_singleton] using hm⟩
  · clear hout
    induction st with
    | nil =>
      intro e he
      simp only [bumpOuter] at he
      rcases List.mem_cons.1 he with he | he
      · subst he
        refine ⟨?_, bumpInner_ne_nil _ _, bumpInner_pos _ _ (by simp) ⟩
        exact bumpInner_keys_nodup [] ty (by simp)
      · cases he
    | cons e rest ih =>
      intro f hf
      by_cases hb : (e.1 == nb)
      · simp only [bumpOuter, hb, if_true] at hf
        rcases List.mem_cons.1 hf with hf | hf
        · subst hf
          have he2 := hin e (List.mem_cons_self _ _)
          exact ⟨bumpInner_keys_nodup _ _ he2.1, bumpInner_ne_nil _ _,
            bumpInner_pos _ _ he2.2.2⟩
        · exact hin f (List.mem_cons_of_mem _ hf)
      · simp only [bumpOuter, hb, if_false] at hf
        rcases List.mem_cons.1 hf with hf | hf
        · rw [hf]
          exact hin e (List.mem_cons_self _ _)
        · exact ih (fun g hg => hin g (List.mem_cons_of_mem _ hg)) f hf

theorem stWF_foldl (resolve : Int → Int → Option String) (items : List (String × Place)) :
    ∀ st, stWF st → stWF (items.foldl (scoresStep resolve) st) := by
  induction items with
  | nil => intro st h; exact h
  | cons a items ih =>
    intro st h
    simp only [List.foldl_cons]
    apply ih
    unfold scoresStep
    cases resolve a.2.lat a.2.lng with
    | none => exact h
    | some nb => exact stWF_bumpOuter _ _ _ h

theorem stWF_runAgg (resolve : Int → Int → Option String) (items : List (String × Place)) :
    stWF (runAgg resolve items).scores := by
  unfold runAgg
  rw [scores_foldl]
  exact stWF_foldl resolve items [] stWF_nil

theorem mem_keys_iff_isSome (m : List (String × α)) (k : String) :
    k ∈ m.map (·.1) ↔ (alistGet? m k).isSome := by
  induction m with
  | nil => simp [alistGet?_nil]
  | cons e rest ih =>
    by_cases he : e.1 = k
    · subst he
      simp [alistGet?_cons]
    · have hb : (e.1 == k) = false := by simpa [beq_eq_false_iff_ne] using he
      simp only [List.map_cons, List.mem_cons, alistGet?_cons, hb, if_false]
      constructor
      · rintro (hh | hh)
        · exact absurd hh.symm he
        · exact ih.1 hh
      · intro hh
        exact Or.inr (ih.2 hh)

theorem alistGet?_eq_some_mem (m : List (String × α)) (k : String) (v : α)
    (h : alistGet? m k = some v) : (k, v) ∈ m := by
  induction m with
  | nil => simp [alistGet?_nil] at h
  | cons e rest ih =>
    rw [alistGet?_cons] at h
    by_cases hb : (e.1 == k)
    · simp only [hb, if_true, Option.some.injEq] at h
      have he : e.1 = k := by simpa using hb
      have hek : e = (k, v) := by cases e; simp_all
      rw [hek]
      exact List.mem_cons_self _ _
    · simp only [hb, if_false] at h
      exact List.mem_cons_of_mem _ (ih h)

theorem inner_lookup_eq (resolve : Int → Int → Option String) (items : List (String × Place))
    (nb ty : String) :
    alistGet? ((alistGet? (runAgg resolve items).scores nb).getD []) ty =
      if items.countP (itemPred resolve nb ty) = 0 then none
      else some (items.countP (itemPred resolve nb ty)) := by
  have hcount := countOf_runAgg resolve items nb ty
  unfold countOf at hcount
  cases hl : alistGet? ((alistGet? (runAgg resolve items).scores nb).getD []) ty with
  | none =>
    rw [hl] at hcount
    simp only [Option.getD_none] at hcount
    rw [if_pos hcount.symm]
  | some v =>
    rw [hl] at hcount
    simp only [Option.getD_some] at hcount
    have hpos : 0 < v := by
      cases ho : alistGet? (runAgg resolve items).scores nb with
      | none => rw [ho] at hl; simp [alistGet?_nil] at hl
      | some inner =>
        have hwf := stWF_runAgg resolve items
        have hmem := alistGet?_eq_some_mem _ _ _ ho
        have hinner := hwf.2 _ hmem
        rw [ho] at hl
        simp only [Option.getD_some] at hl
        have := alistGet?_eq_some_mem _ _ _ hl
        exact hinner.2.2 _ this
    rw [if_neg (by omega), hcount]

theorem innerKeys_mem_iff (resolve : Int → Int → Option String) (items : List (String × Place))
    (nb ty : String) :
    (ty ∈ ((alistGet? (runAgg resolve items).scores nb).getD []).map (·.1)) ↔
      items.countP (itemPred resolve nb ty) ≠ 0 := by
  rw [mem_keys_iff_isSome, inner_lookup_eq]
  by_cases h : items.countP (itemPred resolve nb ty) = 0 <;> simp [h]

theorem itemPred_imp_itemPredNb (resolve : Int → Int → Option String) (nb ty : String)
    (it : String × Place) (h : itemPred resolve nb ty it = true) :
    itemPredNb resolve nb it = true := by
  unfold itemPred at h
  unfold itemPredNb
  rw [Bool.and_eq_true] at h
  exact h.2

theorem outer_isSome_iff (resolve : Int → Int → Option String) (items : List (String × Place))
    (nb : String) :
    (alistGet? (runAgg resolve items).scores nb).isSome ↔
      items.countP (itemPredNb resolve nb) ≠ 0 := by
  constructor
  · intro h
    cases ho : alistGet? (runAgg resolve items).scores nb with
    | none => rw [ho] at h; simp at h
    | some inner =>
      have hwf := stWF_runAgg resolve items
      have hmem := alistGet?_eq_some_mem _ _ _ ho
      have hinner := hwf.2 _ hmem
      obtain ⟨c, hc⟩ := List.exists_mem_of_ne_nil _ hinner.2.1
      have hkey : c.1 ∈ ((alistGet? (runAgg resolve items).scores nb).getD []).map (·.1) := by
        rw [ho]
        simp only [Option.getD_some]
        exact List.mem_map_of_mem _ hc
      have hcp := (innerKeys_mem_iff resolve items nb c.1).1 hkey
      intro hzero
      apply hcp
      rw [List.countP_eq_zero] at hzero ⊢
      intro a ha hpa
      exact hzero a ha (itemPred_imp_itemPredNb resolve nb c.1 a hpa)
  · intro h
    have : ∃ a ∈ items, itemPredNb resolve nb a := by
      by_contra hno
      push_neg at hno
      apply h
      rw [List.countP_eq_zero]
      intro a ha
      simp only [Bool.not_eq_true]
      exact Bool.not_eq_true _ ▸ fun hq => (hno a ha) hq
    obtain ⟨a, ha, hpa⟩ := this
    have hpred : itemPred resolve nb a.1 a = true := by
      unfold itemPred
      unfold itemPredNb at hpa
      simp [hpa]
    have hcp : items.countP (itemPred resolve nb a.1) ≠ 0 := by
      intro hzero
      rw [List.countP_eq_zero] at hzero
      exact hzero a ha hpred
    have hkey := (innerKeys_mem_iff resolve items nb a.1).2 hcp
    cases ho : alistGet? (runAgg resolve items).scores nb with
    | none => rw [ho] at hkey; simp [alistGet?_nil] at hkey
    | some inner => simp

theorem alist_sum_eq (l : List (String × Nat)) (h : (l.map (·.1)).Nodup) :
    (l.map (·.2)).sum = ((l.map (·.1)).map (fun k => (alistGet? l k).getD 0)).sum := by
  induction l with
  | nil => rfl
  | cons e rest ih =>
    simp only [List.map_cons, List.sum_cons] at *
    have hnd := h
    rw [List.nodup_cons] at hnd
    have hhead : (alistGet? (e :: rest) e.1).getD 0 = e.2 := by
      simp [alistGet?_cons]
    have htail : (rest.map (·.1)).map (fun k => (alistGet? (e :: rest) k).getD 0) =
        (rest.map (·.1)).map (fun k => (alistGet? rest k).getD 0) := by
      apply List.map_congr_left
      intro k hk
      have hne : ¬ e.1 = k := fun hh => hnd.1 (hh ▸ hk)
      have hb : (e.1 == k) = false := by simpa [beq_eq_false_iff_ne] using hne
      simp [alistGet?_cons, hb]
    rw [hhead, htail, ih hnd.2]

theorem insertDesc_perm (x : ScoredNeighborhood) (l : List ScoredNeighborhood) :
    (insertDesc x l).Perm (x :: l) := by
  induction l with
  | nil => exact List.Perm.refl _
  | cons y ys ih =>
    by_cases h : y.amenityScore < x.amenityScore
    · simp [insertDesc, h]
    · simp only [insertDesc, h, if_false]
      exact (ih.cons y).trans (List.Perm.swap x y ys)

theorem sortByScoreDesc_perm (l : List ScoredNeighborhood) :
    (sortByScoreDesc l).Perm l := by
  induction l with
  | nil => exact List.Perm.refl _
  | cons a l ih =>
    unfold sortByScoreDesc at *
    simp only [List.foldr_cons]
    exact (insertDesc_perm a _).trans (ih.cons a)

theorem mkScored_names (st : List (String × List (String × Nat))) :
    (mkScored st).map (·.neighborhood) = st.map (·.1) := by
  unfold mkScored mkScoredRecord
  simp

theorem find_eq_of_mem_nodup (l : List ScoredNeighborhood) (nb : String)
    (r : ScoredNeighborhood) (hnd : (l.map (·.neighborhood)).Nodup) (hr : r ∈ l)
    (hname : r.neighborhood = nb) :
    l.find? (fun x => x.neighborhood == nb) = some r := by
  induction l with
  | nil => cases hr
  | cons e rest ih =>
    rcases List.mem_cons.1 hr with hr | hr
    · have hb : (e.neighborhood == nb) = true := by
        rw [← hr, hname]
        simp
      simp [List.find?_cons, hb, hr]
    · have hnd2 := hnd
      rw [List.map_cons, List.nodup_cons] at hnd2
      have hne : ¬ e.neighborhood = nb := by
        intro hh
        apply hnd2.1
        rw [hh, ← hname]
        exact List.mem_map_of_mem _ hr
      have hb : (e.neighborhood == nb) = false := by simpa [beq_eq_false_iff_ne] using hne
      rw [List.find?_cons, hb]
      exact ih hnd2.2 hr

theorem find_none_of_not_mem (l : List ScoredNeighborhood) (nb : String)
    (h : nb ∉ l.map (·.neighborhood)) :
    l.find? (fun x => x.neighborhood == nb) = none := by
  rw [List.find?_eq_none]
  intro x hx hh
  have hxn : x.neighborhood = nb := by simpa using hh
  exact h (hxn ▸ List.mem_map_of_mem _ hx)

theorem findScored_scoredFromItems (resolve : Int → Int → Option String)
    (items : List (String × Place)) (nb : String) :
    findScored (scoredFromItems resolve items) nb =
      (alistGet? (runAgg resolve items).scores nb).map (fun inner => mkScoredRecord nb inner) := by
  have hwf := stWF_runAgg resolve items
  have hperm := sortByScoreDesc_perm (mkScored (runAgg resolve items).scores)
  have hnames : ((scoredFromItems resolve items).map (·.neighborhood)).Perm
      ((runAgg resolve items).scores.map (·.1)) := by
    rw [← mkScored_names]
    exact hperm.map _
  have hnd : ((scoredFromItems resolve items).map (·.neighborhood)).Nodup := by
    rw [List.Perm.nodup_iff hnames]
    exact hwf.1
  cases ho : alistGet? (runAgg resolve items).scores nb with
  | none =>
    have hnot : nb ∉ (runAgg resolve items).scores.map (·.1) := by
      rw [mem_keys_iff_isSome, ho]
      simp
    have hnot2 : nb ∉ (scoredFromItems resolve items).map (·.neighborhood) := by
      intro hh
      exact hnot (hnames.mem_iff.1 hh)
    exact find_none_of_not_mem _ _ hnot2
  | some inner =>
    have hmem := alistGet?_eq_some_mem _ _ _ ho
    have hmem2 : mkScoredRecord nb inner ∈ mkScored (runAgg resolve items).scores := by
      unfold mkScored
      exact List.mem_map.2 ⟨(nb, inner), hmem, rfl⟩
    have hmem3 : mkScoredRecord nb inner ∈ scoredFromItems resolve items :=
      hperm.mem_iff.2 hmem2
    exact find_eq_of_mem_nodup _ _ _ hnd hmem3 rfl

theorem filterWithIndex_sublist (p : Nat → α → Bool) (l : List α) :
    ∀ i, (filterWithIndex p l i).Sublist l := by
  induction l with
  | nil => intro i; simp [filterWithIndex]
  | cons a rest ih =>
    intro i
    unfold filterWithIndex
    by_cases h : p i a
    · simp only [h, if_true]
      exact (ih (i + 1)).cons₂ a
    · simp only [h, if_false]
      exact (ih (i + 1)).cons a

theorem filterWithIndex_eq_kept (vs : List Verdict) (posts : List String) :
    ∀ i : Nat, filterWithIndex (fun j _ => keepPost vs j) posts i =
      keptPerClaim vs posts ((i : Int) + 1) := by
  induction posts with
  | nil => intro i; rfl
  | cons p rest ih =>
    intro i
    have hcast : ((i : Int) + 1) + 1 = (((i + 1 : Nat) : Int) + 1) := by push_cast; ring
    cases hf : vs.find? (fun s => s.postIndex == (i : Int) + 1) with
    | none =>
      have hk : keepPost vs i = false := by unfold keepPost; rw [hf]
      simp only [filterWithIndex, keptPerClaim, hk, hf]
      rw [if_neg (by simp), ih (i + 1), hcast]
    | some s =>
      have hk : keepPost vs i = s.isRelevant := by unfold keepPost; rw [hf]
      cases hrel : s.isRelevant with
      | true =>
        simp only [filterWithIndex, keptPerClaim, hk, hf, hrel]
        rw [if_pos trivial, if_pos trivial, ih (i + 1), hcast]
      | false =>
        simp only [filterWithIndex, keptPerClaim, hk, hf, hrel]
        rw [if_neg (by simp), if_neg (by simp), ih (i + 1), hcast]

theorem getAmenityCoordinates_length_le (cityCoords : Option (Int × Int)) (raw : List RawPlace)
    (limit : Nat) (ty : String) :
    (getAmenityCoordinates cityCoords raw limit ty).length ≤ limit := by
  unfold getAmenityCoordinates
  cases cityCoords with
  | none => simp
  | some c =>
    simp only [List.length_map, List.length_take]
    omega

theorem assembleB_ok_shape (city preferences : String) (amenitiesNeeded : List String)
    (scoredNeighborhoods : List ScoredNeighborhood)
    (neighborhoodAmenities : List (String × List (String × List Place)))
    (env : EnvB) (r : HandlerResultB)
    (h : assembleB city preferences amenitiesNeeded scoredNeighborhoods neighborhoodAmenities env
       = Except.ok r) :
    ∃ resp, r = HandlerResultB.okResp resp
      ∧ resp.recommendations.recommendations.length ≤ 5
      ∧ (∀ e ∈ resp.mapData.neighborhoodAmenities, ∀ te ∈ e.2, te.2.length ≤ 5)
      ∧ (∀ ae ∈ resp.mapData.amenities, ae.2.length ≤ 10) := by
  unfold assembleB at h
  cases hfil : (if env.scrapedPosts.isEmpty then Except.ok ([] : List String)
      else filterRelevantPosts env.scrapedPosts preferences env.filterResp) with
  | error e => rw [hfil] at h; cases h
  | ok filteredPosts =>
    rw [hfil] at h
    simp only [Except.ok.injEq] at h
    refine ⟨_, h.symm, ?_, ?_, ?_⟩
    · simp only [recsListB, List.length_map, List.length_take]
      omega
    · intro e he te hte
      simp only [nbAmenitiesOut, List.mem_map] at he
      obtain ⟨rec, _, hrec⟩ := he
      rw [← hrec] at hte
      simp only [List.mem_map] at hte
      obtain ⟨ty, _, hty⟩ := hte
      rw [← hty]
      cases halist : (alistGet? neighborhoodAmenities rec.neighborhood).bind
          (fun inner => alistGet? inner ty) with
      | none => simp [halist]
      | some lst =>
        simp only [halist, List.length_take]
        omega
    · intro ae hae
      simp only [mapAmenitiesB, List.mem_map] at hae
      obtain ⟨ty, _, hty⟩ := hae
      rw [← hty]
      exact getAmenityCoordinates_length_le _ _ _ _

theorem strLength_append (s t : String) : (s ++ t).length = s.length + t.length := by
  cases s with
  | mk a =>
    cases t with
    | mk b =>
      show (a ++ b).length = a.length + b.length
      exact List.length_append a b

theorem strLength_pos (s : String) (h : s ≠ "") : 0 < s.length := by
  cases s with
  | mk data =>
    cases data with
    | nil => exact absurd rfl h
    | cons c cs => simp [String.length]

theorem jsToLower_length (s : String) : (jsToLower s).length = s.length := by
  cases s with
  | mk data => simp [jsToLower, String.length]

theorem filter_pos_four (a b c d : String) (ha : 0 < a.length) (hb : 0 < b.length)
    (hc : 0 < c.length) (hd : 0 < d.length) :
    List.filter (fun s => s.length > 0) [a, b, c, d] = [a, b, c, d] := by
  apply List.filter_eq_self.2
  intro x hx
  simp only [List.mem_cons, List.not_mem_nil, or_false] at hx
  rcases hx with rfl | rfl | rfl | rfl
  · simpa using ha
  · simpa using hb
  · simpa using hc
  · simpa using hd

theorem bodyB_ok_caps (req : ReqBody) (env : EnvB) (r : HandlerResultB)
    (h : recommendationsBodyB req env = Except.ok r) : respectsCapsB r := by
  unfold recommendationsBodyB at h
  by_cases hval : (isFalsy req.city || isFalsy req.preferences) = true
  · rw [if_pos hval] at h
    simp only [Except.ok.injEq] at h
    subst h
    simp [respectsCapsB]
  · rw [if_neg hval] at h
    by_cases hamen : (amenitiesNeededOf env).isEmpty = true
    · rw [if_pos hamen] at h
      simp at h
    · rw [if_neg hamen] at h
      by_cases hscored : ((scoreNeighborhoodsByAmenities env.resolve env.rawAllPlaces
          (amenitiesNeededOf env)).1).isEmpty = true
      · rw [if_pos hscored] at h
        simp only [Except.ok.injEq] at h
        subst h
        simp [respectsCapsB]
      · rw [if_neg hscored] at h
        obtain ⟨resp, hr, hcaps⟩ := assembleB_ok_shape _ _ _ _ _ _ _ h
        subst hr
        simpa [respectsCapsB] using hcaps

theorem bodyC_ok_caps (req : ReqBody) (env : EnvC) (r : HandlerResultC)
    (h : recommendationsBodyC req env = Except.ok r) : respectsCapsC r := by
  unfold recommendationsBodyC at h
  by_cases hval : (isFalsy req.city || isFalsy req.preferences) = true
  · rw [if_pos hval] at h
    simp only [Except.ok.injEq] at h
    subst h
    simp [respectsCapsC]
  · rw [if_neg hval] at h
    cases hpp : env.parsedPrefs with
    | none => rw [hpp] at h; simp at h
    | some parsedData =>
      rw [hpp] at h
      cases hfil : (if env.scrapedPosts.isEmpty then Except.ok ([] : List String)
          else filterRelevantPosts env.scrapedPosts ((req.preferences).getD "")
            env.filterResp) with
      | error e => rw [hfil] at h; simp at h
      | ok filteredPosts =>
        rw [hfil] at h
        cases han : env.analysisOutcome with
        | parseError msg => rw [han] at h; simp at h
        | noJson =>
          rw [han] at h
          simp only [Except.ok.injEq] at h
          subst h
          simp [respectsCapsC]
        | parsed recs =>
          rw [han] at h
          simp only [Except.ok.injEq] at h
          subst h
          simp only [respectsCapsC]
          intro ae hae
          simp only [List.mem_map] at hae
          obtain ⟨ty, _, hty⟩ := hae
          rw [← hty]
          exact getAmenityCoordinates_length_le _ _ _ _

/-- C1: every neighborhood aggregate produced by the scoring step
(scoreNeighborhoodsByAmenities) satisfies
amenityScore = totalAmenities + 5 * amenityTypeCount exactly, its
totalAmenities equals the sum of the values of amenityCounts, and its
amenityTypeCount equals the number of non-zero entries of amenityCounts. -/
theorem C1_score_invariants (resolve : Int → Int → Option String)
    (rawAllPlaces : String → List RawPlace) (amenitiesNeeded : List String)
    (rec : ScoredNeighborhood)
    (h : rec ∈ (scoreNeighborhoodsByAmenities resolve rawAllPlaces amenitiesNeeded).1) :
    rec.amenityScore = rec.totalAmenities + 5 * rec.amenityTypes
    ∧ rec.totalAmenities = (rec.amenityCounts.map (·.2)).sum
    ∧ rec.amenityTypes = (rec.amenityCounts.filter (fun c => c.2 != 0)).length := by
  have hperm := sortByScoreDesc_perm
    (mkScored (runAgg resolve (scoreItems rawAllPlaces amenitiesNeeded)).scores)
  have hmem : rec ∈ mkScored (runAgg resolve (scoreItems rawAllPlaces amenitiesNeeded)).scores :=
    hperm.mem_iff.1 h
  obtain ⟨e, he, hrec⟩ := List.mem_map.1 hmem
  have hwf := stWF_runAgg resolve (scoreItems rawAllPlaces amenitiesNeeded)
  have hpos := (hwf.2 e he).2.2
  subst hrec
  refine ⟨?_, rfl, ?_⟩
  · show (e.2.map (·.2)).sum + e.2.length * 5 = (e.2.map (·.2)).sum + 5 * e.2.length
    ring
  · have hfilter : e.2.filter (fun c => c.2 != 0) = e.2 := by
      apply List.filter_eq_self.2
      intro c hc
      have hcp := hpos c hc
      simp only [bne_iff_ne, ne_eq, decide_not]
      omega
    show e.2.length = (e.2.filter (fun c => c.2 != 0)).length
    rw [hfilter]

/-- Witness for C1: the concrete single-gym scenario produces the Downtown
aggregate, and the theorem applies to it. -/
theorem C1_witness :
    recW ∈ (scoreNeighborhoodsByAmenities resolveW rawW ["gym"]).1
    ∧ (recW.amenityScore = recW.totalAmenities + 5 * recW.amenityTypes
       ∧ recW.totalAmenities = (recW.amenityCounts.map (·.2)).sum
       ∧ recW.amenityTypes = (recW.amenityCounts.filter (fun c => c.2 != 0)).length) :=
  ⟨by decide, C1_score_invariants resolveW rawW ["gym"] recW (by decide)⟩

/-- C2: for every preferences string and every post sequence, an unparsable
relevance-filter response makes filterRelevantPosts return the input post
sequence unchanged. -/
theorem C2_fail_open (posts : List String) (preferences : String) :
    filterRelevantPosts posts preferences FilterParse.malformed = Except.ok posts := rfl

/-- C3: contrary to the claim, a request whose extracted amenity list is empty
does not produce the synthetic Downtown entry: the no-amenity branch reads the
redditData constant before its declaration (src/server.js:1323 versus 1381),
so the handler throws a ReferenceError and answers 500. The embedded handler
evaluated at such a request returns the 500 outcome. -/
theorem C3_tdz_reference_error :
    recommendationsHandlerB reqSpring envBNoAmenities
      = HandlerResultB.serverError "Cannot access redditData before initialization"
    ∧ amenitiesNeededOf envBNoAmenities = []
    ∧ envBNoAmenities.neighborhoodExtractionParse = none :=
  ⟨rfl, rfl, rfl⟩

/-- Counterexample to C4: in the query-first variant the parsed model
recommendations pass through uncapped, so a six-entry analysis response yields
a six-entry recommendations.recommendations sequence. -/
theorem C4_counterexample :
    handlerCRecCount (recommendationsHandlerC reqSpring envCSix) = some 6 ∧ ¬ (6 ≤ 5) :=
  ⟨rfl, by decide⟩

/-- C4 amended: the caps hold in the amenity-first handler (recommendations at
most 5, per-neighborhood amenity lists at most 5, display amenity lists at
most 10) and the query-first handler caps its display amenity lists at 5; the
query-first recommendations sequence itself is the parsed model output and is
not capped. -/
theorem C4_amended_caps (reqB : ReqBody) (envB : EnvB) (reqC : ReqBody) (envC : EnvC) :
    respectsCapsB (recommendationsHandlerB reqB envB)
    ∧ respectsCapsC (recommendationsHandlerC reqC envC) := by
  constructor
  · unfold recommendationsHandlerB
    cases hbody : recommendationsBodyB reqB envB with
    | error e => simp [respectsCapsB]
    | ok r => exact bodyB_ok_caps reqB envB r hbody
  · unfold recommendationsHandlerC
    cases hbody : recommendationsBodyC reqC envC with
    | error e => simp [respectsCapsC]
    | ok r => exact bodyC_ok_caps reqC envC r hbody

/-- C5: aggregating any permutation of the located, resolved place records
yields, for every neighborhood, identical totalAmenities, amenityTypeCount,
amenityScore, and an identical amenityCounts mapping. scoredFromItems is the
scoring pipeline of scoreNeighborhoodsByAmenities applied to its flattened
item list. -/
theorem C5_order_independence (resolve : Int → Int → Option String)
    (items1 items2 : List (String × Place)) (hp : items1.Perm items2) (nb : String) :
    ((findScored (scoredFromItems resolve items1) nb).map (·.totalAmenities)
      = (findScored (scoredFromItems resolve items2) nb).map (·.totalAmenities))
    ∧ ((findScored (scoredFromItems resolve items1) nb).map (·.amenityTypes)
      = (findScored (scoredFromItems resolve items2) nb).map (·.amenityTypes))
    ∧ ((findScored (scoredFromItems resolve items1) nb).map (·.amenityScore)
      = (findScored (scoredFromItems resolve items2) nb).map (·.amenityScore))
    ∧ (∀ ty, (findScored (scoredFromItems resolve items1) nb).map
          (fun r => alistGet? r.amenityCounts ty)
        = (findScored (scoredFromItems resolve items2) nb).map
          (fun r => alistGet? r.amenityCounts ty)) := by
  have hchar1 := findScored_scoredFromItems resolve items1 nb
  have hchar2 := findScored_scoredFromItems resolve items2 nb
  have hcp : ∀ ty, items1.countP (itemPred resolve nb ty)
      = items2.countP (itemPred resolve nb ty) := fun ty => hp.countP_eq _
  have hcpnb : items1.countP (itemPredNb resolve nb)
      = items2.countP (itemPredNb resolve nb) := hp.countP_eq _
  cases ho1 : alistGet? (runAgg resolve items1).scores nb with
  | none =>
    have hnone2 : alistGet? (runAgg resolve items2).scores nb = none := by
      cases ho2 : alistGet? (runAgg resolve items2).scores nb with
      | none => rfl
      | some inner2 =>
        exfalso
        have h2 := (outer_isSome_iff resolve items2 nb).1 (by rw [ho2]; simp)
        have h1 := outer_isSome_iff resolve items1 nb
        rw [ho1] at h1
        simp only [Option.isSome_none, Bool.false_eq_true, false_iff, not_not] at h1
        rw [hcpnb] at h1
        exact h2 h1
    rw [hchar1, hchar2, ho1, hnone2]
    exact ⟨rfl, rfl, rfl, fun ty => rfl⟩
  | some inner1 =>
    have hsome2 : (alistGet? (runAgg resolve items2).scores nb).isSome = true := by
      rw [outer_isSome_iff, ← hcpnb, ← outer_isSome_iff, ho1]
      simp
    obtain ⟨inner2, ho2⟩ := Option.isSome_iff_exists.1 hsome2
    rw [hchar1, hchar2, ho1, ho2]
    have hwf1 := stWF_runAgg resolve items1
    have hwf2 := stWF_runAgg resolve items2
    have hin1 := hwf1.2 _ (alistGet?_eq_some_mem _ _ _ ho1)
    have hin2 := hwf2.2 _ (alistGet?_eq_some_mem _ _ _ ho2)
    have hlk1 : ∀ ty, alistGet? inner1 ty =
        (if items1.countP (itemPred resolve nb ty) = 0 then none
         else some (items1.countP (itemPred resolve nb ty))) := by
      intro ty
      have hh := inner_lookup_eq resolve items1 nb ty
      rw [ho1] at hh
      simpa using hh
    have hlk2 : ∀ ty, alistGet? inner2 ty =
        (if items2.countP (itemPred resolve nb ty) = 0 then none
         else some (items2.countP (itemPred resolve nb ty))) := by
      intro ty
      have hh := inner_lookup_eq resolve items2 nb ty
      rw [ho2] at hh
      simpa using hh
    have hkm1 : ∀ ty, (ty ∈ inner1.map (·.1)) ↔
        items1.countP (itemPred resolve nb ty) ≠ 0 := by
      intro ty
      have hh := innerKeys_mem_iff resolve items1 nb ty
      rw [ho1] at hh
      simpa using hh
    have hkm2 : ∀ ty, (ty ∈ inner2.map (·.1)) ↔
        items2.countP (itemPred resolve nb ty) ≠ 0 := by
      intro ty
      have hh := innerKeys_mem_iff resolve items2 nb ty
      rw [ho2] at hh
      simpa using hh
    have hcounts : ∀ ty, alistGet? inner1 ty = alistGet? inner2 ty := by
      intro ty
      rw [hlk1 ty, hlk2 ty, hcp ty]
    have hkeysperm : (inner1.map (·.1)).Perm (inner2.map (·.1)) := by
      rw [List.perm_ext_iff_of_nodup hin1.1 hin2.1]
      intro a
      rw [hkm1 a, hkm2 a, hcp a]
    have htypes : inner1.length = inner2.length := by
      have hh := hkeysperm.length_eq
      simpa using hh
    have htotal : (inner1.map (·.2)).sum = (inner2.map (·.2)).sum := by
      rw [alist_sum_eq _ hin1.1, alist_sum_eq _ hin2.1]
      have hmapeq : (inner1.map (·.1)).map (fun k => (alistGet? inner1 k).getD 0) =
          (inner1.map (·.1)).map (fun k => (alistGet? inner2 k).getD 0) := by
        apply List.map_congr_left
        intro k _
        rw [hcounts k]
      rw [hmapeq]
      exact (hkeysperm.map (fun k => (alistGet? inner2 k).getD 0)).sum_eq
    refine ⟨?_, ?_, ?_, ?_⟩
    · simp [mkScoredRecord, htotal]
    · simp [mkScoredRecord, htypes]
    · simp [mkScoredRecord, htotal, htypes]
    · intro ty
      simp [mkScoredRecord, hcounts ty]

/-- Witness for C5: swapping the two gym records leaves every Downtown
aggregate observation unchanged. -/
theorem C5_witness :
    ((findScored (scoredFromItems resolveW [itemGymA, itemGymB]) "Downtown").map (·.totalAmenities)
      = (findScored (scoredFromItems resolveW [itemGymB, itemGymA]) "Downtown").map (·.totalAmenities))
    ∧ ((findScored (scoredFromItems resolveW [itemGymA, itemGymB]) "Downtown").map (·.amenityTypes)
      = (findScored (scoredFromItems resolveW [itemGymB, itemGymA]) "Downtown").map (·.amenityTypes))
    ∧ ((findScored (scoredFromItems resolveW [itemGymA, itemGymB]) "Downtown").map (·.amenityScore)
      = (findScored (scoredFromItems resolveW [itemGymB, itemGymA]) "Downtown").map (·.amenityScore))
    ∧ (∀ ty, (findScored (scoredFromItems resolveW [itemGymA, itemGymB]) "Downtown").map
          (fun r => alistGet? r.amenityCounts ty)
        = (findScored (scoredFromItems resolveW [itemGymB, itemGymA]) "Downtown").map
          (fun r => alistGet? r.amenityCounts ty)) :=
  C5_order_independence resolveW [itemGymA, itemGymB] [itemGymB, itemGymA]
    (List.Perm.swap itemGymB itemGymA []) "Downtown"

/-- C6: for every post sequence and every successfully parsed verdict array,
filterRelevantPosts keeps exactly the posts whose matching verdict (first
entry with postIndex equal to the post 1-based position) has isRelevant true,
drops posts with no matching entry, and preserves the original relative order
(the kept list is a sublist of the input). -/
theorem C6_parsed_filter (posts : List String) (preferences : String) (vs : List Verdict) :
    ∃ out, filterRelevantPosts posts preferences (FilterParse.arrayOf vs) = Except.ok out
      ∧ out.Sublist posts
      ∧ out = keptPerClaim vs posts 1 := by
  refine ⟨filterWithIndex (fun i _ => keepPost vs i) posts 0, rfl,
    filterWithIndex_sublist _ _ 0, ?_⟩
  have hh := filterWithIndex_eq_kept vs posts 0
  simpa using hh

/-- Counterexample to C7: for the empty city string the zero-match fallback is
filtered down to three entries, not the claimed four-element list headed by
the lowercased city. -/
theorem C7_counterexample :
    discoverSubreddits "" (RedditSearchOutcome.success []) = ["housing", "Ask", "neighborhoods"]
    ∧ (discoverSubreddits "" (RedditSearchOutcome.success [])).length ≠ 4 := by
  constructor
  · rfl
  · decide

/-- C7 amended: for every nonempty city string, a zero-match search yields
exactly the four-element fallback list, and a transport failure yields exactly
the two-element ultimate fallback; both branches return normally. -/
theorem C7_amended_fallbacks (city : String) (hc : city ≠ "")
    (children : List SubredditRecord)
    (hz : children.filter (subredditIsRelevant city) = []) :
    discoverSubreddits city (RedditSearchOutcome.success children)
      = [jsToLower city, jsToLower city ++ "housing", "Ask" ++ city,
         jsToLower city ++ "neighborhoods"]
    ∧ discoverSubreddits city RedditSearchOutcome.failure = [jsToLower city, "Ask" ++ city] := by
  have h1 : 0 < (jsToLower city).length := by
    rw [jsToLower_length]
    exact strLength_pos city hc
  have h2 : 0 < (jsToLower city ++ "housing").length := by
    rw [strLength_append]
    have hpos : 0 < ("housing" : String).length := by decide
    omega
  have h3 : 0 < ("Ask" ++ city).length := by
    rw [strLength_append]
    have hpos : 0 < ("Ask" : String).length := by decide
    omega
  have h4 : 0 < (jsToLower city ++ "neighborhoods").length := by
    rw [strLength_append]
    have hpos : 0 < ("neighborhoods" : String).length := by decide
    omega
  refine ⟨?_, rfl⟩
  have key : discoverSubreddits city (RedditSearchOutcome.success children)
      = ([jsToLower city, jsToLower city ++ "housing", "Ask" ++ city,
          jsToLower city ++ "neighborhoods"]).filter (fun s => s.length > 0) := by
    simp only [discoverSubreddits]
    rw [hz]
    simp
  rw [key]
  exact filter_pos_four _ _ _ _ h1 h2 h3 h4

/-- Witness for C7: the Springfield scenario instantiates the amended claim,
giving the fallback lists of the specification. -/
theorem C7_witness :
    discoverSubreddits "Springfield" (RedditSearchOutcome.success [])
      = [jsToLower "Springfield", jsToLower "Springfield" ++ "housing", "Ask" ++ "Springfield",
         jsToLower "Springfield" ++ "neighborhoods"]
    ∧ discoverSubreddits "Springfield" RedditSearchOutcome.failure
      = [jsToLower "Springfield", "Ask" ++ "Springfield"] :=
  C7_amended_fallbacks "Springfield" (by decide) [] rfl

/-- C8: when the amenity-extraction response fails to parse, the amenity list
the pipeline proceeds with is exactly [gym, grocery_or_supermarket]; the step
itself raises nothing, and the resulting list is nonempty so the handler
continues into the amenity branch. -/
theorem C8_default_amenities (env : EnvB) :
    (extractAmenities none).1 = ["gym", "grocery_or_supermarket"]
    ∧ amenitiesNeededOf { env with amenityParse := none } = ["gym", "grocery_or_supermarket"]
    ∧ (amenitiesNeededOf { env with amenityParse := none }).isEmpty = false :=
  ⟨rfl, rfl, rfl⟩

/-- Counterexample to C9: a request with both fields present still receives a
400 when the amenity scoring finds zero neighborhoods
(src/server.js:1313-1315). -/
theorem C9_counterexample :
    recommendationsHandlerB reqSpring envBNoPlaces
      = HandlerResultB.badRequest "No neighborhoods found with requested amenities in Springfield"
    ∧ isFalsy reqSpring.city = false
    ∧ isFalsy reqSpring.preferences = false :=
  ⟨rfl, rfl, rfl⟩

/-- C9 amended: the amenity-first handler answers 400 exactly when a required
field is missing or empty, or when both are present but the nonempty amenity
list scores zero neighborhoods; no other branch produces a 400. -/
theorem C9_amended_badRequest_iff (req : ReqBody) (env : EnvB) :
    (∃ msg, recommendationsHandlerB req env = HandlerResultB.badRequest msg) ↔
      ((isFalsy req.city || isFalsy req.preferences) = true
       ∨ ((isFalsy req.city || isFalsy req.preferences) = false
          ∧ amenitiesNeededOf env ≠ []
          ∧ (scoreNeighborhoodsByAmenities env.resolve env.rawAllPlaces
              (amenitiesNeededOf env)).1 = [])) := by
  unfold recommendationsHandlerB recommendationsBodyB
  by_cases hval : (isFalsy req.city || isFalsy req.preferences) = true
  · rw [if_pos hval]
    simp [hval]
  · have hvalf : (isFalsy req.city || isFalsy req.preferences) = false := by
      revert hval
      cases isFalsy req.city || isFalsy req.preferences <;> simp
    rw [if_neg hval]
    by_cases hamen : (amenitiesNeededOf env).isEmpty = true
    · rw [if_pos hamen]
      have hempty : amenitiesNeededOf env = [] := by
        simpa [List.isEmpty_iff] using hamen
      simp [hvalf, hempty]
    · rw [if_neg hamen]
      have hne : amenitiesNeededOf env ≠ [] := by
        intro hh
        apply hamen
        simp [hh]
      by_cases hscored : ((scoreNeighborhoodsByAmenities env.resolve env.rawAllPlaces
          (amenitiesNeededOf env)).1).isEmpty = true
      · rw [if_pos hscored]
        have hs : (scoreNeighborhoodsByAmenities env.resolve env.rawAllPlaces
            (amenitiesNeededOf env)).1 = [] := by
          simpa [List.isEmpty_iff] using hscored
        constructor
        · intro _
          exact Or.inr ⟨hvalf, hne, hs⟩
        · intro _
          exact ⟨"No neighborhoods found with requested amenities in " ++ (req.city).getD "", rfl⟩
      · rw [if_neg hscored]
        have hsne : (scoreNeighborhoodsByAmenities env.resolve env.rawAllPlaces
            (amenitiesNeededOf env)).1 ≠ [] := by
          intro hh
          apply hscored
          simp [hh]
        constructor
        · rintro ⟨msg, hmsg⟩
          exfalso
          cases hass : assembleB ((req.city).getD "") ((req.preferences).getD "")
              (amenitiesNeededOf env)
              (scoreNeighborhoodsByAmenities env.resolve env.rawAllPlaces
                (amenitiesNeededOf env)).1
              (scoreNeighborhoodsByAmenities env.resolve env.rawAllPlaces
                (amenitiesNeededOf env)).2
              env with
          | error e =>
            rw [hass] at hmsg
            simp at hmsg
          | ok r =>
            rw [hass] at hmsg
            obtain ⟨resp, hr, _⟩ := assembleB_ok_shape _ _ _ _ _ _ _ hass
            rw [hr] at hmsg
            simp at hmsg
        · rintro (h | ⟨_, _, hs2⟩)
          · rw [hvalf] at h
            cases h
          · exact absurd hs2 hsne

/-- C10: a well-formed but non-array relevance-filter response (for example a
JSON object) is not covered by the fail-open path: filterRelevantPosts throws
a TypeError, the exception reaches the request handler, and the request fails
with a 500; only malformed JSON triggers the fail-open return. -/
theorem C10_non_array_throws :
    filterRelevantPosts ["Title: sample post"] "quiet area" FilterParse.nonArray
      = Except.error (JsError.typeError "relevanceScores.find is not a function")
    ∧ recommendationsHandlerB reqSpring envBNonArray
      = HandlerResultB.serverError "relevanceScores.find is not a function"
    ∧ filterRelevantPosts ["Title: sample post"] "quiet area" FilterParse.malformed
      = Except.ok ["Title: sample post"] :=
  ⟨rfl, rfl, rfl⟩
